import Mathlib

/-!
# Weather ETL Pipeline — verification of the spec against the code

Shallow embedding of the core of the `weather_pipeline` repository:
the weather source client (`src/weather_api.py`), the observation store
queries (`src/models.py`, `src/api.py`), the ETL orchestrator
(`src/pipeline.py`) and the scheduler loop (`src/scheduler.py`).

Conventions of the embedding:
* Python floats become `ℚ`, Unix timestamps and SQL datetimes become `Int`
  (seconds), Python `None`-able fields become `Option`.
* Network and database I/O is abstracted into explicit outcome values
  passed to the embedded functions; the control flow around those
  outcomes is translated statement-by-statement from the source.
* Python exceptions become explicit error values (`Except`, outcome
  inductives); a Lean function being total models "never raises".
-/

namespace WeatherPipeline

/-! ## Data model (`src/models.py`, `WeatherObservation`)

The nested JSON payload shape consumed by
`WeatherAPIClient.transform_weather_data` (`src/weather_api.py`): the
provider response carries optional nested objects `coord`, `main`,
`wind` and an optional `weather` array, plus the Unix timestamp `dt`. -/

/-- The `main` nested object of the provider payload. -/
structure MainData where
  temp : Option ℚ
  feels_like : Option ℚ
  humidity : Option Int
  pressure : Option Int
deriving DecidableEq

/-- The `wind` nested object of the provider payload. -/
structure WindData where
  speed : Option ℚ
  deg : Option Int
deriving DecidableEq

/-- The `coord` nested object of the provider payload. -/
structure CoordData where
  lat : Option ℚ
  lon : Option ℚ
deriving DecidableEq

/-- One entry of the `weather` array of the provider payload. -/
structure WeatherEntry where
  main : Option String
  description : Option String
deriving DecidableEq

/-- A raw provider payload: each nested object may be absent, and each
field inside a present object may itself be absent. -/
structure RawPayload where
  dt : Option Int
  coord : Option CoordData
  main : Option MainData
  wind : Option WindData
  weather : Option (List WeatherEntry)
deriving DecidableEq

/-- A row of the `weather_observations` table / a `WeatherObservation`
instance (`src/models.py` lines 23–50).  The surrogate `id` is not
modelled; `raw_json` keeps the payload itself rather than its JSON
serialization. -/
structure WeatherObservation where
  location : String
  lat : Option ℚ
  lon : Option ℚ
  timestamp_utc : Int
  temp_c : Option ℚ
  temp_k : Option ℚ
  feels_like_c : Option ℚ
  humidity : Option Int
  pressure : Option Int
  wind_speed : Option ℚ
  wind_deg : Option Int
  weather_main : Option String
  weather_description : Option String
  raw_json : RawPayload
  fetched_at_utc : Int
deriving DecidableEq

/-! ## Weather source client (`src/weather_api.py`) -/

/-- Outcome of the HTTP call made inside
`WeatherAPIClient.fetch_weather_data` (lines 52–59): the request either
yields a decodable JSON body, fails at the network/timeout level
(`requests.exceptions.RequestException`, the spec's `SourceUnavailable`),
fails with a non-success status (`response.raise_for_status()`, the
spec's `SourceError`), fails to decode (`json.JSONDecodeError`, the
spec's `MalformedResponse`), or raises some exception outside the two
caught classes. -/
inductive HTTPResult where
  | ok (payload : RawPayload)
  | networkError
  | httpError
  | badJSON
  | unexpected
deriving DecidableEq

/-- Errors escaping one fetch/transform attempt as distinguished by the
`except` clauses of `fetch_and_transform_location` (lines 164–173):
`weatherAPIError` is the single `WeatherAPIError` class raised by
`fetch_weather_data`, `unexpectedError` is any other exception. -/
inductive FetchError where
  | weatherAPIError
  | unexpectedError
deriving DecidableEq

/-- `WeatherAPIClient.fetch_weather_data` (lines 27–65), with the HTTP
request abstracted into its outcome.  Both caught exception classes —
`RequestException` (network error and HTTP-status error alike) and
`JSONDecodeError` — are re-raised as the single `WeatherAPIError`; any
other exception propagates unchanged. -/
def fetch_weather_data : HTTPResult → Except FetchError RawPayload
  | .ok payload => .ok payload
  | .networkError => .error .weatherAPIError
  | .httpError => .error .weatherAPIError
  | .badJSON => .error .weatherAPIError
  | .unexpected => .error .unexpectedError

/-- `WeatherAPIClient.transform_weather_data` (lines 67–116).  `now` is
the wall clock read by `int(time.time())` / `datetime.now(tz=utc)`.
Each absent nested object is replaced by an empty one (`.get(…, {})`,
`or [{}]`), so every derived field of an absent object is `none`. -/
def transform_weather_data (now : Int) (location : String) (raw_data : RawPayload) :
    WeatherObservation :=
  let timestamp_utc := raw_data.dt.getD now
  let fetched_at := now
  let main := raw_data.main.getD ⟨none, none, none, none⟩
  let wind := raw_data.wind.getD ⟨none, none⟩
  let weather := match raw_data.weather with
    | some (w :: _) => w
    | some [] => ⟨none, none⟩
    | none => ⟨none, none⟩
  let temp_k := main.temp
  let temp_c := temp_k.map (fun k => k - 27315 / 100)
  let feels_like_k := main.feels_like
  let feels_like_c := feels_like_k.map (fun k => k - 27315 / 100)
  { location := location
    lat := (raw_data.coord.getD ⟨none, none⟩).lat
    lon := (raw_data.coord.getD ⟨none, none⟩).lon
    timestamp_utc := timestamp_utc
    temp_c := temp_c
    temp_k := temp_k
    feels_like_c := feels_like_c
    humidity := main.humidity
    pressure := main.pressure
    wind_speed := wind.speed
    wind_deg := wind.deg
    weather_main := weather.main
    weather_description := weather.description
    raw_json := raw_data
    fetched_at_utc := fetched_at }

/-- `WeatherAPIClient.validate_weather_data` (lines 118–133): currently
a pass-through returning `True`. -/
def validate_weather_data (_observation : WeatherObservation) : Bool :=
  true

/-- Retry configuration consumed by `fetch_and_transform_location`
(`src/config.py`: `MAX_RETRIES`, `RETRY_DELAY_SECONDS`). -/
structure RetryConfig where
  maxRetries : Nat
  retryDelaySeconds : Nat
deriving DecidableEq

/-- An API client instance as seen by `fetch_and_transform_location`:
the outcome of the HTTP request on each attempt index, and the
`validate_weather_data` method.  The shipped client uses
`validate_weather_data` above; keeping it a field mirrors that the
function calls whatever client instance it is handed. -/
structure APIClient where
  response : Nat → HTTPResult
  validate : WeatherObservation → Bool

/-- Observable trace of one `fetch_and_transform_location` run: how many
fetch attempts were made, the `time.sleep` durations in order, and the
returned value (`some` observation or `None`). -/
structure RunTrace where
  attempts : Nat
  sleeps : List Nat
  result : Option WeatherObservation
deriving DecidableEq

/-- The retry loop body of `fetch_and_transform_location` (lines
148–175), one list entry per remaining iteration of
`for attempt in range(MAX_RETRIES)`.  On `WeatherAPIError` the code
sleeps and retries unless this was the last attempt
(`attempt < Config.MAX_RETRIES - 1`); on any other exception, and on a
validation failure, it returns `None` at once. -/
def fetchLoopGo (client : APIClient) (location : String) (now : Int) (delay : Nat) :
    List HTTPResult → RunTrace
  | [] => ⟨0, [], none⟩
  | r :: rest =>
    match fetch_weather_data r with
    | .ok raw_data =>
      let observation := transform_weather_data now location raw_data
      if client.validate observation then ⟨1, [], some observation⟩
      else ⟨1, [], none⟩
    | .error .unexpectedError => ⟨1, [], none⟩
    | .error .weatherAPIError =>
      match rest with
      | [] => ⟨1, [], none⟩
      | _ :: _ =>
        let t := fetchLoopGo client location now delay rest
        ⟨t.attempts + 1, delay :: t.sleeps, t.result⟩

/-- `fetch_and_transform_location` (lines 135–175): up to
`cfg.maxRetries` attempts against the given client. -/
def fetch_and_transform_location (client : APIClient) (location : String) (now : Int)
    (cfg : RetryConfig) : RunTrace :=
  fetchLoopGo client location now cfg.retryDelaySeconds
    ((List.range cfg.maxRetries).map client.response)

/-! ## Observation store queries (`src/models.py`, `src/api.py`)

The store is the `weather_observations` table, modelled as a list of
rows.  SQL datetimes are modelled as `Int` seconds; `datetime('now')` is
an explicit `now` argument. -/

/-- ASCII case folding as performed by SQLite's default `LIKE`: the
code point, with upper-case ASCII letters mapped to lower case. -/
def charFoldNat (c : Char) : Nat :=
  if 65 ≤ c.toNat ∧ c.toNat ≤ 90 then c.toNat + 32 else c.toNat

/-- SQLite `LIKE` pattern matching as used by
`WeatherObservation.location.like(f"{location}%")` in
`src/api.py` (line 98): `%` matches any sequence (any suffix split),
`_` matches any single character, and character comparison folds ASCII
case (SQLite's default case-insensitive `LIKE`). -/
def likeMatch : List Char → List Char → Bool
  | [], t => t.isEmpty
  | '%' :: ps, t => t.tails.any (fun suf => likeMatch ps suf)
  | '_' :: ps, t =>
    match t with
    | [] => false
    | _ :: cs => likeMatch ps cs
  | p :: ps, t =>
    match t with
    | [] => false
    | c :: cs => (charFoldNat p == charFoldNat c) && likeMatch ps cs

/-- SQLite `LIKE` on strings: `sqliteLike pattern s` is `s LIKE pattern`. -/
def sqliteLike (pattern : String) (s : String) : Bool :=
  likeMatch pattern.toList s.toList

/-- `ORDER BY fetched_at_utc DESC ... first()`: the first row of the
list whose `fetched_at_utc` is maximal (`none` on the empty list).  The
relative order of rows tied on `fetched_at_utc` is unspecified in SQL;
this picks the earliest stored one, and no theorem below depends on the
tie-break. -/
def firstByMaxFetched : List WeatherObservation → Option WeatherObservation
  | [] => none
  | r :: rs =>
    match firstByMaxFetched rs with
    | none => some r
    | some b => if r.fetched_at_utc < b.fetched_at_utc then some b else some r

/-- `get_weather_by_location` (`src/api.py` lines 90–139), reduced to
its query: filter the table by `location LIKE f"{loc}%"`, order by
`fetched_at_utc` descending, take the first row. -/
def get_weather_by_location (rows : List WeatherObservation) (loc : String) :
    Option WeatherObservation :=
  firstByMaxFetched (rows.filter (fun r => sqliteLike (loc ++ "%") r.location))

/-- `DatabaseManager.get_latest_observations` (`src/models.py` lines
115–131): the `limit` most recent rows by `fetched_at_utc` descending,
irrespective of location. -/
def get_latest_observations (rows : List WeatherObservation) (limit : Nat) :
    List WeatherObservation :=
  ((rows.mergeSort (fun a b => b.fetched_at_utc ≤ a.fetched_at_utc)).take limit)

/-- SQL `MAX` over a list of datetimes (`none` on the empty group). -/
def listMaxInt : List Int → Option Int
  | [] => none
  | x :: xs =>
    match listMaxInt xs with
    | none => some x
    | some m => some (max x m)

/-- `MAX(fetched_at_utc)` over the rows of one location, `none` when the
location has no rows. -/
def maxFetchedAt (rows : List WeatherObservation) (loc : String) : Option Int :=
  listMaxInt ((rows.filter (fun r => r.location == loc)).map (fun r => r.fetched_at_utc))

/-- `DatabaseManager.get_stale_locations` (`src/models.py` lines
133–156): `SELECT location, MAX(fetched_at_utc) FROM weather_observations
GROUP BY location HAVING MAX(fetched_at_utc) < datetime('now', '-X
minutes')`.  Groups are the distinct locations of the table; the
threshold instant is `now - minutes_threshold * 60` seconds. -/
def get_stale_locations (rows : List WeatherObservation) (now : Int)
    (minutes_threshold : Nat) : List (String × Int) :=
  ((rows.map (fun r => r.location)).dedup).filterMap fun loc =>
    match maxFetchedAt rows loc with
    | some m => if m < now - minutes_threshold * 60 then some (loc, m) else none
    | none => none

/-! ## ETL orchestrator (`src/pipeline.py`) -/

/-- Python's `str.strip()`: remove leading and trailing whitespace
(`location.strip()` in `_process_locations`, line 69). -/
def pyStrip (s : String) : String :=
  ⟨((s.data.dropWhile Char.isWhitespace).reverse.dropWhile Char.isWhitespace).reverse⟩

/-- Outcome of `fetch_and_transform_location` for one location as seen
by `WeatherETLPipeline._process_locations`: a returned observation, a
returned `None`, or an exception escaping the call (caught by the
orchestrator's `except` clause, lines 77–79). -/
inductive LocOutcome where
  | ok (observation : WeatherObservation)
  | failed
  | raised
deriving DecidableEq

/-- `WeatherETLPipeline._process_locations` (lines 56–81), with the
per-location work abstracted into its outcome.  Returns the list of
locations for which `fetch_and_transform_location` was actually invoked
(in order) together with the collected observations.  Each entry is
stripped; empty entries are skipped by `continue`; a `None` result or an
exception skips the location and the loop continues. -/
def process_locations (locs : List String) (runLoc : String → LocOutcome) :
    List String × List WeatherObservation :=
  match locs with
  | [] => ([], [])
  | loc :: rest =>
    let l := pyStrip loc
    if l = "" then process_locations rest runLoc
    else
      let t := process_locations rest runLoc
      match runLoc l with
      | .ok observation => (l :: t.1, observation :: t.2)
      | .failed => (l :: t.1, t.2)
      | .raised => (l :: t.1, t.2)

/-- Outcome of `DatabaseManager.save_weather_observation` for one
observation as seen by `WeatherETLPipeline._save_observations`: the call
returned `True`, returned `False`, or raised (caught by the `except`
clause, lines 103–105). -/
inductive SaveOutcome where
  | saved
  | refused
  | raised
deriving DecidableEq

/-- Loop body of `WeatherETLPipeline._save_observations` (lines
83–108): `store i` is the outcome of the `i`-th save call.  Returns the
list of observations offered to the store (in order) and the
`saved_count`. -/
def saveLoopGo (store : Nat → SaveOutcome) :
    List WeatherObservation → Nat → List WeatherObservation × Nat
  | [], _ => ([], 0)
  | observation :: rest, i =>
    let t := saveLoopGo store rest (i + 1)
    match store i with
    | .saved => (observation :: t.1, t.2 + 1)
    | .refused => (observation :: t.1, t.2)
    | .raised => (observation :: t.1, t.2)

/-- `WeatherETLPipeline._save_observations` (lines 83–108). -/
def save_observations (observations : List WeatherObservation)
    (store : Nat → SaveOutcome) : List WeatherObservation × Nat :=
  saveLoopGo store observations 0

/-! ## Scheduler (`src/scheduler.py`) -/

/-- Result of one `run_pipeline()` call as seen by
`WeatherScheduler._run_etl_job`: returned `True`, returned `False`, or
raised an `Exception`. -/
inductive CycleResult where
  | ok
  | failed
  | raisesExc
deriving DecidableEq

/-- What `_run_etl_job` logs about one cycle. -/
inductive JobLog where
  | completed
  | failedLog
  | errorLog
deriving DecidableEq

/-- `WeatherScheduler._run_etl_job` (lines 89–101): every cycle result,
including an exception, is absorbed into a log entry — the function is
total, it never propagates the cycle's exception. -/
def run_etl_job : CycleResult → JobLog
  | .ok => .completed
  | .failed => .failedLog
  | .raisesExc => .errorLog

/-- One iteration of the `while self._running` loop of
`WeatherScheduler._run_scheduler` (lines 103–120): either
`schedule.run_pending()` fires the ETL job (with some cycle result), or
nothing is due, or the iteration raises `KeyboardInterrupt` (the loop
stops and breaks), or it raises some other exception (logged, loop
continues). -/
inductive LoopEvent where
  | tick (r : CycleResult)
  | idle
  | keyboardInterrupt
  | loopError
deriving DecidableEq

/-- `WeatherScheduler._run_scheduler` (lines 103–120) over a finite
schedule of loop iterations, returning the job logs produced.
`KeyboardInterrupt` breaks the loop; any other per-iteration exception
is logged and the loop continues; a tick runs `_run_etl_job`, which
never raises. -/
def run_scheduler : List LoopEvent → List JobLog
  | [] => []
  | .tick r :: rest => run_etl_job r :: run_scheduler rest
  | .idle :: rest => run_scheduler rest
  | .keyboardInterrupt :: _ => []
  | .loopError :: rest => run_scheduler rest

/-- Predicate picking the iterations that fire the ETL job. -/
def isTick : LoopEvent → Bool
  | .tick _ => true
  | _ => false

/-- A concrete table row used by concrete instances below. -/
def testRow (l : String) (t : Int) : WeatherObservation :=
  { location := l, lat := none, lon := none, timestamp_utc := 0, temp_c := none,
    temp_k := none, feels_like_c := none, humidity := none, pressure := none,
    wind_speed := none, wind_deg := none, weather_main := none,
    weather_description := none, raw_json := ⟨none, none, none, none, none⟩,
    fetched_at_utc := t }

/-! ## Helper lemmas -/

theorem listMaxInt_eq_none_iff (l : List Int) : listMaxInt l = none ↔ l = [] := by
  cases l with
  | nil => simp [listMaxInt]
  | cons x xs =>
    simp only [listMaxInt]
    cases listMaxInt xs <;> simp

theorem listMaxInt_mem : ∀ (l : List Int) (m : Int), listMaxInt l = some m → m ∈ l := by
  intro l
  induction l with
  | nil => intro m h; simp [listMaxInt] at h
  | cons x xs ih =>
    intro m h
    simp only [listMaxInt] at h
    cases hxs : listMaxInt xs with
    | none =>
      rw [hxs] at h
      simp at h
      subst h
      exact List.mem_cons_self x xs
    | some mx =>
      rw [hxs] at h
      simp at h
      rcases max_choice x mx with hc | hc <;> rw [hc] at h
      · subst h; exact List.mem_cons_self x xs
      · subst h; exact List.mem_cons_of_mem _ (ih mx hxs)

theorem le_listMaxInt : ∀ (l : List Int) (m : Int), listMaxInt l = some m →
    ∀ x ∈ l, x ≤ m := by
  intro l
  induction l with
  | nil => intro m h; simp [listMaxInt] at h
  | cons x xs ih =>
    intro m h
    simp only [listMaxInt] at h
    cases hxs : listMaxInt xs with
    | none =>
      rw [hxs] at h
      simp at h
      have hnil := (listMaxInt_eq_none_iff xs).1 hxs
      subst h
      intro y hy
      rw [hnil] at hy
      simp at hy
      simp [hy]
    | some mx =>
      rw [hxs] at h
      simp at h
      intro y hy
      rcases List.mem_cons.1 hy with rfl | hmem
      · exact h ▸ le_max_left y mx
      · exact le_trans (ih mx hxs y hmem) (h ▸ le_max_right x mx)

theorem firstByMaxFetched_eq_none_iff (l : List WeatherObservation) :
    firstByMaxFetched l = none ↔ l = [] := by
  cases l with
  | nil => simp [firstByMaxFetched]
  | cons r rs =>
    simp only [firstByMaxFetched]
    cases firstByMaxFetched rs with
    | none => simp
    | some b =>
      simp only
      split <;> simp

theorem firstByMaxFetched_mem : ∀ (l : List WeatherObservation) (b : WeatherObservation),
    firstByMaxFetched l = some b → b ∈ l := by
  intro l
  induction l with
  | nil => intro b h; simp [firstByMaxFetched] at h
  | cons r rs ih =>
    intro b h
    simp only [firstByMaxFetched] at h
    cases hrs : firstByMaxFetched rs with
    | none =>
      rw [hrs] at h
      simp at h
      subst h
      exact List.mem_cons_self r rs
    | some c =>
      rw [hrs] at h
      dsimp only at h
      split at h
      · simp at h
        subst h
        exact List.mem_cons_of_mem _ (ih c hrs)
      · simp at h
        subst h
        exact List.mem_cons_self r rs

theorem firstByMaxFetched_le : ∀ (l : List WeatherObservation) (b : WeatherObservation),
    firstByMaxFetched l = some b → ∀ x ∈ l, x.fetched_at_utc ≤ b.fetched_at_utc := by
  intro l
  induction l with
  | nil => intro b h; simp [firstByMaxFetched] at h
  | cons r rs ih =>
    intro b h
    simp only [firstByMaxFetched] at h
    cases hrs : firstByMaxFetched rs with
    | none =>
      rw [hrs] at h
      simp at h
      have hnil := (firstByMaxFetched_eq_none_iff rs).1 hrs
      subst h
      intro x hx
      rw [hnil] at hx
      simp at hx
      simp [hx]
    | some c =>
      rw [hrs] at h
      dsimp only at h
      have ihc := ih c hrs
      split at h
      · rename_i hlt
        simp at h
        subst h
        intro x hx
        rcases List.mem_cons.1 hx with rfl | hmem
        · exact le_of_lt hlt
        · exact ihc x hmem
      · rename_i hnlt
        simp at h
        subst h
        intro x hx
        rcases List.mem_cons.1 hx with rfl | hmem
        · exact le_refl _
        · exact le_trans (ihc x hmem) (not_lt.1 hnlt)

theorem fetchLoopGo_cons_apiError (client : APIClient) (loc : String) (now : Int) (d : Nat)
    (r : HTTPResult) (hr : fetch_weather_data r = Except.error FetchError.weatherAPIError) :
    (fetchLoopGo client loc now d [r] = ⟨1, [], none⟩) ∧
    (∀ y ys, fetchLoopGo client loc now d (r :: y :: ys) =
      ⟨(fetchLoopGo client loc now d (y :: ys)).attempts + 1,
       d :: (fetchLoopGo client loc now d (y :: ys)).sleeps,
       (fetchLoopGo client loc now d (y :: ys)).result⟩) := by
  cases r with
  | ok p => simp [fetch_weather_data] at hr
  | unexpected => simp [fetch_weather_data] at hr
  | networkError => exact ⟨rfl, fun y ys => rfl⟩
  | httpError => exact ⟨rfl, fun y ys => rfl⟩
  | badJSON => exact ⟨rfl, fun y ys => rfl⟩

theorem fetchLoopGo_allAPIError (client : APIClient) (loc : String) (now : Int) (d : Nat) :
    ∀ l : List HTTPResult,
      (∀ r ∈ l, fetch_weather_data r = Except.error FetchError.weatherAPIError) →
      fetchLoopGo client loc now d l =
        ⟨l.length, List.replicate (l.length - 1) d, none⟩ := by
  intro l
  induction l with
  | nil => intro _; rfl
  | cons r rest ih =>
    intro h
    have hr := h r (List.mem_cons_self r rest)
    have hc := fetchLoopGo_cons_apiError client loc now d r hr
    cases rest with
    | nil => simpa using hc.1
    | cons y ys =>
      rw [hc.2 y ys, ih (fun x hx => h x (List.mem_cons_of_mem _ hx))]
      simp [List.replicate_succ]

/-! ## Claims -/

/-- C1, as stated, is false on the code: a `MalformedResponse`
(undecodable payload, `HTTPResult.badJSON`) is wrapped in the single
`WeatherAPIError` class and therefore retried like any other
`WeatherAPIError`.  With the default configuration (`MAX_RETRIES = 3`,
`RETRY_DELAY_SECONDS = 5`) and a client whose payload never decodes,
`fetch_and_transform_location` makes 3 attempts with two delays, not a
single attempt. -/
theorem weather_c1_counterexample :
    ¬ (∀ (client : APIClient) (loc : String) (now : Int) (cfg : RetryConfig),
        1 ≤ cfg.maxRetries → client.response 0 = HTTPResult.badJSON →
        fetch_and_transform_location client loc now cfg = ⟨1, [], none⟩) := by
  intro hclaim
  have h := hclaim ⟨fun _ => HTTPResult.badJSON, validate_weather_data⟩
    "Colombo,Sri Lanka" 0 ⟨3, 5⟩ (by norm_num) rfl
  have h3 : (fetch_and_transform_location ⟨fun _ => HTTPResult.badJSON, validate_weather_data⟩
      "Colombo,Sri Lanka" 0 ⟨3, 5⟩).attempts = 3 := rfl
  rw [h] at h3
  exact absurd h3 (by norm_num)

/-- C1 (amended): a `MalformedResponse` raises the single
`WeatherAPIError` and is retried exactly like a retryable error — a
client whose payload never decodes gets `MAX_RETRIES` attempts with the
fixed delay between consecutive attempts and ends in a failed result;
a validation failure, by contrast, is indeed never retried: the first
attempt returns `None` at once, with no delay. -/
theorem weather_c1_error_handling (client : APIClient) (loc : String) (now : Int)
    (cfg : RetryConfig) :
    ((∀ i, client.response i = HTTPResult.badJSON) →
      fetch_and_transform_location client loc now cfg =
        ⟨cfg.maxRetries, List.replicate (cfg.maxRetries - 1) cfg.retryDelaySeconds, none⟩) ∧
    (∀ raw, 1 ≤ cfg.maxRetries → client.response 0 = HTTPResult.ok raw →
      client.validate (transform_weather_data now loc raw) = false →
      fetch_and_transform_location client loc now cfg = ⟨1, [], none⟩) := by
  constructor
  · intro h
    unfold fetch_and_transform_location
    have hall : ∀ r ∈ (List.range cfg.maxRetries).map client.response,
        fetch_weather_data r = Except.error FetchError.weatherAPIError := by
      intro r hr
      obtain ⟨i, _, rfl⟩ := List.mem_map.1 hr
      rw [h i]
      rfl
    rw [fetchLoopGo_allAPIError client loc now cfg.retryDelaySeconds _ hall]
    simp
  · intro raw h1 h0 hval
    obtain ⟨mr, d⟩ := cfg
    obtain ⟨n, rfl⟩ : ∃ n, mr = n + 1 :=
      ⟨mr - 1, (Nat.succ_pred_eq_of_pos h1).symm⟩
    unfold fetch_and_transform_location
    simp only [List.range_succ_eq_map, List.map_cons, h0]
    cases n with
    | zero => simp [fetchLoopGo, fetch_weather_data, hval]
    | succ k =>
      simp [fetchLoopGo, fetch_weather_data, hval]

/-- C1 amended, at concrete inputs: an always-undecodable client with
the default configuration yields 3 attempts, two 5-second delays and no
observation; a client whose first response is fine but whose validation
rejects the observation yields one attempt, no delay, no observation. -/
theorem weather_c1_witness :
    fetch_and_transform_location ⟨fun _ => HTTPResult.badJSON, validate_weather_data⟩
        "Colombo,Sri Lanka" 0 ⟨3, 5⟩ = ⟨3, [5, 5], none⟩ ∧
    fetch_and_transform_location
        ⟨fun _ => HTTPResult.ok ⟨none, none, none, none, none⟩, fun _ => false⟩
        "Colombo,Sri Lanka" 0 ⟨3, 5⟩ = ⟨1, [], none⟩ := by
  constructor
  · have h := (weather_c1_error_handling ⟨fun _ => HTTPResult.badJSON, validate_weather_data⟩
      "Colombo,Sri Lanka" 0 ⟨3, 5⟩).1 (fun _ => rfl)
    simpa using h
  · exact (weather_c1_error_handling
      ⟨fun _ => HTTPResult.ok ⟨none, none, none, none, none⟩, fun _ => false⟩
      "Colombo,Sri Lanka" 0 ⟨3, 5⟩).2 ⟨none, none, none, none, none⟩ (by norm_num) rfl rfl

/-- C2: against a client that fails with a retryable error
(`SourceUnavailable`, a network error) on every attempt,
`fetch_and_transform_location` makes exactly `MAX_RETRIES` fetch
attempts, sleeps the fixed `RETRY_DELAY_SECONDS` between consecutive
attempts (`MAX_RETRIES - 1` sleeps, none after the last attempt), and
returns a failed result with no observation. -/
theorem weather_c2_exhausted_retries (client : APIClient) (loc : String) (now : Int)
    (cfg : RetryConfig) (h : ∀ i, client.response i = HTTPResult.networkError) :
    fetch_and_transform_location client loc now cfg =
      ⟨cfg.maxRetries, List.replicate (cfg.maxRetries - 1) cfg.retryDelaySeconds, none⟩ := by
  unfold fetch_and_transform_location
  have hall : ∀ r ∈ (List.range cfg.maxRetries).map client.response,
      fetch_weather_data r = Except.error FetchError.weatherAPIError := by
    intro r hr
    obtain ⟨i, _, rfl⟩ := List.mem_map.1 hr
    rw [h i]
    rfl
  rw [fetchLoopGo_allAPIError client loc now cfg.retryDelaySeconds _ hall]
  simp

/-- C2 at a concrete input: an always-unavailable client with the
default configuration yields exactly 3 attempts, sleeps `[5, 5]`, and
no observation. -/
theorem weather_c2_witness :
    fetch_and_transform_location ⟨fun _ => HTTPResult.networkError, validate_weather_data⟩
      "Kandy,Sri Lanka" 0 ⟨3, 5⟩ = ⟨3, [5, 5], none⟩ := by
  have h := weather_c2_exhausted_retries
    ⟨fun _ => HTTPResult.networkError, validate_weather_data⟩
    "Kandy,Sri Lanka" 0 ⟨3, 5⟩ (fun _ => rfl)
  simpa using h

/-- C3, as stated, is false on the code: the query uses SQLite `LIKE`,
which compares ASCII case-insensitively, so the "case-sensitive
exact-prefix match" part fails.  Concretely, for a stored row with
location `"colombo,LK"` and query term `"Colombo"`,
`get_weather_by_location` returns that row although `"Colombo"` is not a
case-sensitive prefix of `"colombo,LK"` (prefix stated on the character
lists of the strings). -/
theorem weather_c3_counterexample :
    ¬ (∀ (rows : List WeatherObservation) (q : String) (r : WeatherObservation),
        get_weather_by_location rows q = some r →
        q.data.isPrefixOf r.location.data = true ∧
        ∀ s ∈ rows, s.location = r.location →
          s.fetched_at_utc ≤ r.fetched_at_utc) := by
  intro hclaim
  have h := hclaim [testRow "colombo,LK" 5] "Colombo" (testRow "colombo,LK" 5) (by decide)
  exact absurd h.1 (by decide)

/-- C3 (amended): `latest` matching follows SQLite `LIKE` semantics —
ASCII-case-insensitive, with `%` and `_` in the query term acting as
wildcards — rather than a case-sensitive prefix match.  With that
matching, the rest of the claim holds: the query returns at most one row
in total (hence at most one row per distinct matching location), the
returned row is a stored row whose location matches `q ++ "%"`, and its
`fetched_at` is the maximum `fetched_at` among all rows of its
location. -/
theorem weather_c3_latest_per_location (rows : List WeatherObservation) (q : String)
    (r : WeatherObservation) (h : get_weather_by_location rows q = some r) :
    r ∈ rows ∧ sqliteLike (q ++ "%") r.location = true ∧
    ∀ s ∈ rows, s.location = r.location → s.fetched_at_utc ≤ r.fetched_at_utc := by
  have hmem := firstByMaxFetched_mem _ _ h
  have hle := firstByMaxFetched_le _ _ h
  have hrmem : r ∈ rows := (List.mem_filter.1 hmem).1
  have hrlike : sqliteLike (q ++ "%") r.location = true := (List.mem_filter.1 hmem).2
  refine ⟨hrmem, hrlike, ?_⟩
  intro s hs hsl
  have hsf : s ∈ rows.filter (fun x => sqliteLike (q ++ "%") x.location) :=
    List.mem_filter.2 ⟨hs, by rw [hsl]; exact hrlike⟩
  exact hle s hsf

/-- C3 amended, at a concrete input: with two rows for
`"Colombo,Sri Lanka"` fetched at 1 and 3, the query for `"Colombo"`
returns a stored, matching row — the one fetched at 3. -/
theorem weather_c3_witness :
    testRow "Colombo,Sri Lanka" 3 ∈
      [testRow "Colombo,Sri Lanka" 1, testRow "Colombo,Sri Lanka" 3] ∧
    sqliteLike ("Colombo" ++ "%") (testRow "Colombo,Sri Lanka" 3).location = true :=
  ⟨(weather_c3_latest_per_location
      [testRow "Colombo,Sri Lanka" 1, testRow "Colombo,Sri Lanka" 3] "Colombo"
      (testRow "Colombo,Sri Lanka" 3) (by decide)).1,
   (weather_c3_latest_per_location
      [testRow "Colombo,Sri Lanka" 1, testRow "Colombo,Sri Lanka" 3] "Colombo"
      (testRow "Colombo,Sri Lanka" 3) (by decide)).2.1⟩

/-- C4: `get_stale_locations` flags a location exactly when the location
has at least one stored row and the `MAX(fetched_at_utc)` over its rows
is strictly older than `now` minus the threshold in minutes; a location
with no rows never appears (the `GROUP BY` only produces groups with at
least one row). -/
theorem weather_c4_stale_iff (rows : List WeatherObservation) (now : Int)
    (thr : Nat) (loc : String) :
    (∃ m, (loc, m) ∈ get_stale_locations rows now thr) ↔
    ((∃ r ∈ rows, r.location = loc) ∧
      ∀ m, maxFetchedAt rows loc = some m → m < now - thr * 60) := by
  constructor
  · rintro ⟨m, hm⟩
    obtain ⟨a, _, hfa⟩ := List.mem_filterMap.1 hm
    cases hma : maxFetchedAt rows a with
    | none => rw [hma] at hfa; simp at hfa
    | some ma =>
      rw [hma] at hfa
      dsimp only at hfa
      split at hfa
      · rename_i hlt
        simp at hfa
        obtain ⟨rfl, rfl⟩ := hfa
        refine ⟨?_, ?_⟩
        · have hmm := listMaxInt_mem _ _ hma
          obtain ⟨r, hrf, _⟩ := List.mem_map.1 hmm
          have := List.mem_filter.1 hrf
          exact ⟨r, this.1, by simpa using this.2⟩
        · intro m' hm'
          rw [hma] at hm'
          simp at hm'
          exact hm' ▸ hlt
      · simp at hfa
  · rintro ⟨⟨r, hr, hrl⟩, hlt⟩
    have hrf : r ∈ rows.filter (fun x => x.location == loc) :=
      List.mem_filter.2 ⟨hr, by simp [hrl]⟩
    have hne : ((rows.filter (fun x => x.location == loc)).map
        (fun x => x.fetched_at_utc)) ≠ [] := by
      simp only [ne_eq, List.map_eq_nil_iff]
      exact List.ne_nil_of_mem hrf
    obtain ⟨m, hm⟩ : ∃ m, maxFetchedAt rows loc = some m := by
      cases hmx : maxFetchedAt rows loc with
      | none => exact absurd ((listMaxInt_eq_none_iff _).1 hmx) hne
      | some m => exact ⟨m, rfl⟩
    refine ⟨m, List.mem_filterMap.2 ⟨loc, ?_, ?_⟩⟩
    · exact List.mem_dedup.2 (List.mem_map.2 ⟨r, hr, hrl⟩)
    · rw [hm]
      simp [hlt m hm]

/-- C5: `transform_weather_data` is total (it models "never raises"),
and for every payload missing a nested object — `main`, `wind`, `coord`
or `weather` — the observation fields derived from that object are all
null. -/
theorem weather_c5_missing_nested (now : Int) (loc : String) (raw : RawPayload) :
    (raw.main = none →
      (transform_weather_data now loc raw).temp_c = none ∧
      (transform_weather_data now loc raw).temp_k = none ∧
      (transform_weather_data now loc raw).feels_like_c = none ∧
      (transform_weather_data now loc raw).humidity = none ∧
      (transform_weather_data now loc raw).pressure = none) ∧
    (raw.wind = none →
      (transform_weather_data now loc raw).wind_speed = none ∧
      (transform_weather_data now loc raw).wind_deg = none) ∧
    (raw.coord = none →
      (transform_weather_data now loc raw).lat = none ∧
      (transform_weather_data now loc raw).lon = none) ∧
    (raw.weather = none →
      (transform_weather_data now loc raw).weather_main = none ∧
      (transform_weather_data now loc raw).weather_description = none) := by
  refine ⟨fun h => ?_, fun h => ?_, fun h => ?_, fun h => ?_⟩ <;>
    simp [transform_weather_data, h]

/-- C5 at a concrete input: transforming the fully empty payload yields
null derived fields in every group. -/
theorem weather_c5_witness :
    (transform_weather_data 0 "Colombo,Sri Lanka" ⟨none, none, none, none, none⟩).temp_c
        = none ∧
    (transform_weather_data 0 "Colombo,Sri Lanka" ⟨none, none, none, none, none⟩).wind_speed
        = none ∧
    (transform_weather_data 0 "Colombo,Sri Lanka" ⟨none, none, none, none, none⟩).lat
        = none ∧
    (transform_weather_data 0 "Colombo,Sri Lanka" ⟨none, none, none, none, none⟩).weather_main
        = none := by
  have h := weather_c5_missing_nested 0 "Colombo,Sri Lanka" ⟨none, none, none, none, none⟩
  exact ⟨(h.1 rfl).1, (h.2.1 rfl).1, (h.2.2.1 rfl).1, (h.2.2.2 rfl).1⟩

/-- C8: when `main.temp` carries a Kelvin value `k`, the transformed
observation has `temp_c = k - 273.15` and `temp_k = k`; the analogous
Celsius derivation holds for `main.feels_like`; and when `main.temp` is
absent both `temp_c` and `temp_k` are null.  (`273.15` is the rational
`27315 / 100`.) -/
theorem weather_c8_temperature (now : Int) (loc : String) (raw : RawPayload) :
    (∀ m k, raw.main = some m → m.temp = some k →
      (transform_weather_data now loc raw).temp_c = some (k - 27315 / 100) ∧
      (transform_weather_data now loc raw).temp_k = some k) ∧
    (∀ m k, raw.main = some m → m.feels_like = some k →
      (transform_weather_data now loc raw).feels_like_c = some (k - 27315 / 100)) ∧
    ((raw.main.getD ⟨none, none, none, none⟩).temp = none →
      (transform_weather_data now loc raw).temp_c = none ∧
      (transform_weather_data now loc raw).temp_k = none) := by
  refine ⟨fun m k hm ht => ?_, fun m k hm hf => ?_, fun h => ?_⟩ <;>
    simp [transform_weather_data, *]

/-- C8 at a concrete input: `main.temp = 300` K gives
`temp_c = 300 - 273.15` and `main.feels_like = 290` K gives
`feels_like_c = 290 - 273.15`. -/
theorem weather_c8_witness :
    (transform_weather_data 0 "Colombo,Sri Lanka"
        ⟨none, none, some ⟨some 300, some 290, none, none⟩, none, none⟩).temp_c =
      some (300 - 27315 / 100) ∧
    (transform_weather_data 0 "Colombo,Sri Lanka"
        ⟨none, none, some ⟨some 300, some 290, none, none⟩, none, none⟩).feels_like_c =
      some (290 - 27315 / 100) :=
  ⟨((weather_c8_temperature 0 "Colombo,Sri Lanka"
      ⟨none, none, some ⟨some 300, some 290, none, none⟩, none, none⟩).1
      ⟨some 300, some 290, none, none⟩ 300 rfl rfl).1,
   (weather_c8_temperature 0 "Colombo,Sri Lanka"
      ⟨none, none, some ⟨some 300, some 290, none, none⟩, none, none⟩).2.1
      ⟨some 300, some 290, none, none⟩ 290 rfl rfl⟩

/-- C6: one location's failure never aborts the cycle.
`_process_locations` invokes the per-location work exactly once for
every configured non-blank (stripped) location, in order, whatever the
other locations' outcomes; and the collected observations are exactly
the successes — an observation is in the cycle's result if and only if
some configured non-blank location produced it, independently of any
failures or exceptions elsewhere in the list. -/
theorem weather_c6_partial_success (locs : List String) (runLoc : String → LocOutcome) :
    (process_locations locs runLoc).1 =
      locs.filterMap (fun loc =>
        if pyStrip loc = "" then none else some (pyStrip loc)) ∧
    ∀ observation,
      (observation ∈ (process_locations locs runLoc).2 ↔
        ∃ loc ∈ locs, pyStrip loc ≠ "" ∧
          runLoc (pyStrip loc) = LocOutcome.ok observation) := by
  induction locs with
  | nil => simp [process_locations]
  | cons a rest ih =>
    by_cases ha : pyStrip a = ""
    · have hstep : process_locations (a :: rest) runLoc =
          process_locations rest runLoc := by
        simp [process_locations, ha]
      rw [hstep]
      constructor
      · simp [List.filterMap_cons, ha, ih.1]
      · intro obs
        rw [ih.2 obs]
        constructor
        · rintro ⟨loc, hl, h1, h2⟩
          exact ⟨loc, List.mem_cons_of_mem _ hl, h1, h2⟩
        · rintro ⟨loc, hl, h1, h2⟩
          rcases List.mem_cons.1 hl with rfl | hl'
          · exact absurd ha h1
          · exact ⟨loc, hl', h1, h2⟩
    · cases hrun : runLoc (pyStrip a) with
      | ok o =>
        have hstep : process_locations (a :: rest) runLoc =
            (pyStrip a :: (process_locations rest runLoc).1,
             o :: (process_locations rest runLoc).2) := by
          simp [process_locations, ha, hrun]
        rw [hstep]
        constructor
        · simp [List.filterMap_cons, ha, ih.1]
        · intro obs
          simp only [List.mem_cons]
          constructor
          · rintro (rfl | hmem)
            · exact ⟨a, Or.inl rfl, ha, hrun⟩
            · obtain ⟨loc, hl, h1, h2⟩ := (ih.2 obs).1 hmem
              exact ⟨loc, Or.inr hl, h1, h2⟩
          · rintro ⟨loc, rfl | hl', h1, h2⟩
            · rw [hrun] at h2
              injection h2 with h2
              exact Or.inl h2.symm
            · exact Or.inr ((ih.2 obs).2 ⟨loc, hl', h1, h2⟩)
      | failed =>
        have hstep : process_locations (a :: rest) runLoc =
            (pyStrip a :: (process_locations rest runLoc).1,
             (process_locations rest runLoc).2) := by
          simp [process_locations, ha, hrun]
        rw [hstep]
        constructor
        · simp [List.filterMap_cons, ha, ih.1]
        · intro obs
          rw [ih.2 obs]
          constructor
          · rintro ⟨loc, hl, h1, h2⟩
            exact ⟨loc, List.mem_cons_of_mem _ hl, h1, h2⟩
          · rintro ⟨loc, hl, h1, h2⟩
            rcases List.mem_cons.1 hl with rfl | hl'
            · rw [hrun] at h2
              exact absurd h2 (by simp)
            · exact ⟨loc, hl', h1, h2⟩
      | raised =>
        have hstep : process_locations (a :: rest) runLoc =
            (pyStrip a :: (process_locations rest runLoc).1,
             (process_locations rest runLoc).2) := by
          simp [process_locations, ha, hrun]
        rw [hstep]
        constructor
        · simp [List.filterMap_cons, ha, ih.1]
        · intro obs
          rw [ih.2 obs]
          constructor
          · rintro ⟨loc, hl, h1, h2⟩
            exact ⟨loc, List.mem_cons_of_mem _ hl, h1, h2⟩
          · rintro ⟨loc, hl, h1, h2⟩
            rcases List.mem_cons.1 hl with rfl | hl'
            · rw [hrun] at h2
              exact absurd h2 (by simp)
            · exact ⟨loc, hl', h1, h2⟩

/-- The trace/count behaviour of the `_save_observations` loop, with the
call index made explicit. -/
theorem saveLoopGo_trace_count (store : Nat → SaveOutcome) :
    ∀ (l : List WeatherObservation) (i : Nat),
      (saveLoopGo store l i).1 = l ∧
      (saveLoopGo store l i).2 =
        ((List.range' i l.length).filter
          (fun j => store j == SaveOutcome.saved)).length := by
  intro l
  induction l with
  | nil => intro i; simp [saveLoopGo]
  | cons o rest ih =>
    intro i
    have ihi := ih (i + 1)
    constructor
    · cases hstore : store i <;> simp [saveLoopGo, hstore, ihi.1]
    · cases hstore : store i <;>
        simp [saveLoopGo, hstore, ihi.2, List.range'_succ, List.filter_cons]

/-- C7: `_save_observations` offers every fetched observation to the
store exactly once (the offered trace is the input list itself, in
order), a failing save never blocks the remaining saves, and the
reported `saved_count` is exactly the number of save calls that
succeeded — never more than the number fetched, and strictly smaller as
soon as one save fails. -/
theorem weather_c7_save_independent :
    (∀ (observations : List WeatherObservation) (store : Nat → SaveOutcome),
      (save_observations observations store).1 = observations ∧
      (save_observations observations store).2 =
        ((List.range observations.length).filter
          (fun i => store i == SaveOutcome.saved)).length ∧
      (save_observations observations store).2 ≤ observations.length) ∧
    (∃ (observations : List WeatherObservation) (store : Nat → SaveOutcome),
      (save_observations observations store).2 < observations.length) := by
  constructor
  · intro observations store
    have h := saveLoopGo_trace_count store observations 0
    refine ⟨h.1, ?_, ?_⟩
    · rw [List.range_eq_range']
      exact h.2
    · show (saveLoopGo store observations 0).2 ≤ observations.length
      rw [h.2]
      calc ((List.range' 0 observations.length).filter
            (fun j => store j == SaveOutcome.saved)).length
          ≤ (List.range' 0 observations.length).length :=
            List.length_filter_le _ _
        _ = observations.length := by simp
  · exact ⟨[testRow "Colombo,Sri Lanka" 0], fun _ => SaveOutcome.raised, by decide⟩

/-- C9: while the scheduler loop runs (no `KeyboardInterrupt` occurs),
every scheduled tick fires its ETL job regardless of earlier cycle
failures or exceptions — a cycle that raises is absorbed by
`_run_etl_job` into an error log entry (`run_etl_job` is total and maps
a raising cycle to `errorLog`), and the count of fired jobs equals the
count of ticks, so the next tick after a failing cycle still fires. -/
theorem weather_c9_cycle_exception_contained (events : List LoopEvent)
    (h : LoopEvent.keyboardInterrupt ∉ events) :
    (run_scheduler events).length = (events.filter isTick).length ∧
    run_etl_job CycleResult.raisesExc = JobLog.errorLog := by
  refine ⟨?_, rfl⟩
  induction events with
  | nil => rfl
  | cons e rest ih =>
    have hrest : LoopEvent.keyboardInterrupt ∉ rest :=
      fun hm => h (List.mem_cons_of_mem _ hm)
    cases e with
    | tick r => simp [run_scheduler, isTick, List.filter_cons, ih hrest]
    | idle => simp [run_scheduler, isTick, List.filter_cons, ih hrest]
    | keyboardInterrupt => exact absurd (List.mem_cons_self _ _) h
    | loopError => simp [run_scheduler, isTick, List.filter_cons, ih hrest]

/-- C9 at a concrete input: a schedule whose first cycle raises and
whose second cycle succeeds still fires both jobs. -/
theorem weather_c9_witness :
    (run_scheduler
      [LoopEvent.tick CycleResult.raisesExc, LoopEvent.idle,
       LoopEvent.tick CycleResult.ok]).length = 2 := by
  have h := (weather_c9_cycle_exception_contained
    [LoopEvent.tick CycleResult.raisesExc, LoopEvent.idle,
     LoopEvent.tick CycleResult.ok] (by decide)).1
  simpa using h

/-- C10: a configured entry that is empty or all whitespace is silently
skipped — deleting such an entry from the configured list leaves the
whole cycle outcome unchanged: the same per-location calls are made (no
fetch is attempted for the blank entry) and the same observations are
collected, so no count derived from the cycle (processed, failed or
saved) is affected by the blank entry. -/
theorem weather_c10_blank_skipped (locs1 locs2 : List String)
    (runLoc : String → LocOutcome) (loc : String) (h : pyStrip loc = "") :
    process_locations (locs1 ++ loc :: locs2) runLoc =
      process_locations (locs1 ++ locs2) runLoc := by
  induction locs1 with
  | nil => simp [process_locations, h]
  | cons a as ih =>
    by_cases ha : pyStrip a = ""
    · simp only [List.cons_append]
      simp [process_locations, ha, ih]
    · simp only [List.cons_append]
      cases hrun : runLoc (pyStrip a) <;>
        simp [process_locations, ha, hrun, ih]

/-- C10 at a concrete input: an all-whitespace entry between two real
locations changes nothing about the cycle. -/
theorem weather_c10_witness :
    process_locations ["Colombo,Sri Lanka", "  ", "Kandy,Sri Lanka"]
        (fun _ => LocOutcome.failed) =
      process_locations ["Colombo,Sri Lanka", "Kandy,Sri Lanka"]
        (fun _ => LocOutcome.failed) :=
  weather_c10_blank_skipped ["Colombo,Sri Lanka"] ["Kandy,Sri Lanka"]
    (fun _ => LocOutcome.failed) "  " (by decide)

end WeatherPipeline
